import Mathlib

/-!
Shallow embedding of the Flask e-commerce application (src/app.py) and
verification of the specification claims about its cart, catalog, checkout
and order-detail operations.

Modelling conventions:
* Python floats (product prices, totals) are modelled as exact rationals `ℚ`.
* Python ints (stock, quantities) are modelled as `ℤ` (they can go negative:
  nothing in the source restricts their sign).
* A cart (a Python dict `product_id -> quantity`, insertion-ordered) is an
  association list `List (Nat × ℤ)`; dict keys are unique in carts built by
  the cart operations.  Cart keys are strings in the source but are always
  produced by `str(...)`/consumed by `int(...)` of an integer id, so they are
  collapsed to `Nat`.
* Database tables are lists of rows; SQLAlchemy `query.get` on a primary key
  is first-match lookup.
* HTTP outcomes are the `Res` inductive: `ok` (2xx), `validationError` (400),
  `notFound` (404), `forbidden` (403), `redirectLogin` (the `login_required`
  decorator's redirect), `internalError` (an uncaught Python exception, 500).
* The SQLAlchemy unit of work: nothing is durable before `db.session.commit()`;
  an uncaught exception rolls the transaction back.  `checkout` therefore takes
  a failure-injection parameter `failAfter` that aborts the order-item loop
  after the given number of iterations, modelling a mid-loop crash; on any
  abort the persisted database is the original one.
-/

namespace App

/-- A JSON / Python value as it arrives in a request body, for the fields the
source coerces with `float(...)` / `int(...)`. -/
inductive PyVal where
  | int : ℤ → PyVal
  | float : ℚ → PyVal
  | str : String → PyVal
  | null : PyVal
  deriving DecidableEq, Repr

/-- Accumulate a decimal digit string; fails on a non-digit character. -/
def digitsAcc : List Char → Nat → Option Nat
  | [], acc => some acc
  | c :: cs, acc =>
    if c.isDigit then digitsAcc cs (acc * 10 + (c.toNat - 48)) else Option.none

/-- `float(s)` for a Python string: optional sign, then `digits`, `digits.digits`,
`digits.` or `.digits`.  (Exponent, `inf`/`nan` and underscore forms are outside
the model; they do not arise in the claims.) -/
def strToFloat (s : String) : Option ℚ :=
  let cs := s.trim.toList
  let signBody : ℚ × List Char :=
    match cs with
    | '-' :: rest => (-1, rest)
    | '+' :: rest => (1, rest)
    | _ => (1, cs)
  let sign := signBody.1
  let body := signBody.2
  let intPart := body.takeWhile Char.isDigit
  let rest := body.dropWhile Char.isDigit
  match rest with
  | [] =>
    match intPart, digitsAcc intPart 0 with
    | [], _ => Option.none
    | _, some n => some (sign * n)
    | _, Option.none => Option.none
  | '.' :: frac =>
    if frac.all Char.isDigit ∧ (intPart ≠ [] ∨ frac ≠ []) then
      match digitsAcc intPart 0, digitsAcc frac 0 with
      | some n, some f => some (sign * ((n : ℚ) + (f : ℚ) / (10 : ℚ) ^ frac.length))
      | _, _ => Option.none
    else Option.none
  | _ => Option.none

/-- `int(s)` for a Python string: optional sign then digits only. -/
def strToInt (s : String) : Option ℤ :=
  let cs := s.trim.toList
  let signBody : ℤ × List Char :=
    match cs with
    | '-' :: rest => (-1, rest)
    | '+' :: rest => (1, rest)
    | _ => (1, cs)
  match signBody.2, digitsAcc signBody.2 0 with
  | [], _ => Option.none
  | _, some n => some (signBody.1 * n)
  | _, Option.none => Option.none

/-- Truncation toward zero, the behaviour of Python `int(float)`. -/
def ratTrunc (q : ℚ) : ℤ := if 0 ≤ q then ⌊q⌋ else ⌈q⌉

/-- Python `float(v)`: identity on numbers, parses strings, raises (None) on
`None` and unparsable strings. -/
def pyFloat : PyVal → Option ℚ
  | PyVal.int n => some (n : ℚ)
  | PyVal.float q => some q
  | PyVal.str s => strToFloat s
  | PyVal.null => Option.none

/-- Python `int(v)`: identity on ints, truncates floats, parses integer strings,
raises (None) on `None` and unparsable strings. -/
def pyInt : PyVal → Option ℤ
  | PyVal.int n => some n
  | PyVal.float q => some (ratTrunc q)
  | PyVal.str s => strToInt s
  | PyVal.null => Option.none

/-- Round-half-to-even on integers' midpoints: the value of Python
`round(q * 100) / 100` computed exactly.  Ties go to the even integer, as in
Python 3's `round`. -/
def roundHalfEven (q : ℚ) : ℤ :=
  let f := ⌊q⌋
  let r := q - (f : ℚ)
  if r < 1 / 2 then f
  else if 1 / 2 < r then f + 1
  else if f % 2 = 0 then f else f + 1

/-- Python `round(q, 2)` in the exact-rational model. -/
def round2 (q : ℚ) : ℚ := (roundHalfEven (q * 100) : ℚ) / 100

/-- Row of the `products` table (class `Product` in the source). -/
structure Product where
  id : Nat
  name : String
  description : Option String
  price : ℚ
  stock : ℤ
  category : String
  image_url : Option String
  created_at : Nat
  updated_at : Nat
  deriving DecidableEq, Repr

/-- Row of the `orders` table (class `Order` in the source). -/
structure Order where
  id : Nat
  user_id : Option Nat
  total_amount : ℚ
  status : String
  shipping_address : String
  created_at : Nat
  deriving DecidableEq, Repr

/-- Row of the `order_items` table (class `OrderItem` in the source). -/
structure OrderItem where
  id : Nat
  order_id : Nat
  product_id : Nat
  quantity : ℤ
  price : ℚ
  deriving DecidableEq, Repr

/-- The relational store: three tables plus autoincrement counters for the
server-generated primary keys. -/
structure DB where
  products : List Product
  orders : List Order
  order_items : List OrderItem
  nextProductId : Nat
  nextOrderId : Nat
  nextItemId : Nat
  deriving DecidableEq, Repr

/-- Server-side session state: the logged-in user (if any) and the cart
mapping (`session['cart']`, absent key identified with the empty mapping,
exactly what `get_cart` produces). -/
structure Session where
  user_id : Option Nat
  cart : List (Nat × ℤ)
  deriving DecidableEq, Repr

/-- Outcome of a route handler. -/
inductive Res (α : Type) where
  | ok : α → Res α
  | validationError : String → Res α
  | notFound : Res α
  | forbidden : Res α
  | redirectLogin : Res α
  | internalError : Res α
  deriving DecidableEq, Repr

/-- Does the response carry HTTP 400 (a `ValidationError`)? -/
def Res.isValidation {α : Type} : Res α → Bool
  | Res.validationError _ => true
  | _ => false

/-- `Product.query.get(pid)`: first (unique, by primary key) row with this id. -/
def findProduct : List Product → Nat → Option Product
  | [], _ => Option.none
  | p :: ps, pid => if p.id = pid then some p else findProduct ps pid

/-- `Order.query.get(oid)`. -/
def findOrder : List Order → Nat → Option Order
  | [], _ => Option.none
  | o :: os, oid => if o.id = oid then some o else findOrder os oid

/-- Dict lookup `cart[pid]` / `pid in cart`. -/
def cartGet : List (Nat × ℤ) → Nat → Option ℤ
  | [], _ => Option.none
  | (k, v) :: rest, pid => if k = pid then some v else cartGet rest pid

/-- Dict assignment `cart[pid] = q`: update in place if the key exists,
append a new entry otherwise (Python dicts keep insertion order). -/
def cartSet : List (Nat × ℤ) → Nat → ℤ → List (Nat × ℤ)
  | [], pid, q => [(pid, q)]
  | (k, v) :: rest, pid, q =>
    if k = pid then (k, q) :: rest else (k, v) :: cartSet rest pid q

/-- Dict deletion `del cart[pid]` (keys are unique in a dict, so removing the
first occurrence is removal of the key). -/
def cartRemove : List (Nat × ℤ) → Nat → List (Nat × ℤ)
  | [], _ => []
  | (k, v) :: rest, pid => if k = pid then rest else (k, v) :: cartRemove rest pid

/-- Total quantity the cart requests for a given product id (equals the
entry's quantity when keys are unique). -/
def cartQty : List (Nat × ℤ) → Nat → ℤ
  | [], _ => 0
  | (k, v) :: rest, pid => (if k = pid then v else 0) + cartQty rest pid

/-- `product.stock -= quantity` for the row with primary key `pid` (every row
with that id; ids are unique in a real table). -/
def decStock : List Product → Nat → ℤ → List Product
  | [], _, _ => []
  | p :: ps, pid, q =>
    (if p.id = pid then { p with stock := p.stock - q } else p) :: decStock ps pid q

/-- Committing the mutated ORM object `p'` back to its table row. -/
def setProduct : List Product → Product → List Product
  | [], _ => []
  | p :: ps, pn => (if p.id = pn.id then pn else p) :: setProduct ps pn

/-- The `order.items` relationship: all line items of the order. -/
def orderItemsOf (db : DB) (oid : Nat) : List OrderItem :=
  db.order_items.filter (fun it => it.order_id = oid)

/-- The running sum of `calculate_cart_total`'s loop: `price * quantity` over
cart entries whose product exists, missing products skipped.  (ℚ addition is
associative and commutative, so the loop's accumulation order is immaterial.) -/
def cartRawTotal (ps : List Product) : List (Nat × ℤ) → ℚ
  | [] => 0
  | (pid, q) :: rest =>
    (match findProduct ps pid with
     | some p => p.price * (q : ℚ)
     | Option.none => 0) + cartRawTotal ps rest

/-- `calculate_cart_total` (src/app.py lines 136-143): loop sum then
`round(total, 2)`. -/
def calculate_cart_total (ps : List Product) (c : List (Nat × ℤ)) : ℚ :=
  round2 (cartRawTotal ps c)

/-- One row of the GET /api/cart response's `items` array. -/
structure CartViewItem where
  product_id : Nat
  product_name : String
  price : ℚ
  quantity : ℤ
  subtotal : ℚ
  deriving DecidableEq, Repr

/-- The GET /api/cart response body. -/
structure CartView where
  items : List CartViewItem
  total : ℚ
  item_count : Nat
  deriving DecidableEq, Repr

/-- The GET /api/cart loop: one row per cart entry whose product still exists;
entries whose product is gone are skipped (and not removed from the cart). -/
def buildItems (db : DB) : List (Nat × ℤ) → List CartViewItem
  | [] => []
  | (pid, q) :: rest =>
    match findProduct db.products pid with
    | some p => ⟨pid, p.name, p.price, q, p.price * (q : ℚ)⟩ :: buildItems db rest
    | Option.none => buildItems db rest

/-- GET /api/cart (src/app.py lines 279-300).  Returns the response body and
the stored cart after the call (the handler never writes the cart). -/
def viewCart (db : DB) (c : List (Nat × ℤ)) : CartView × List (Nat × ℤ) :=
  (⟨buildItems db c, calculate_cart_total db.products c, c.length⟩, c)

/-- POST /api/cart (src/app.py lines 302-325): add `q` of product `pid`.
Returns the response (on success: the new cart and its total) and the stored
cart after the call. -/
def addToCart (db : DB) (c : List (Nat × ℤ)) (pid : Nat) (q : ℤ) :
    Res (List (Nat × ℤ) × ℚ) × List (Nat × ℤ) :=
  match findProduct db.products pid with
  | Option.none => (Res.notFound, c)
  | some p =>
    if q > p.stock then (Res.validationError "Insufficient stock", c)
    else
      let c' :=
        match cartGet c pid with
        | some old => cartSet c pid (old + q)
        | Option.none => cartSet c pid q
      (Res.ok (c', calculate_cart_total db.products c'), c')

/-- PUT /api/cart/update (src/app.py lines 341-366): set product `pid`'s
quantity to `q`.  Returns the response (on success: the new total) and the
stored cart after the call. -/
def update_cart (db : DB) (c : List (Nat × ℤ)) (pid : Nat) (q : ℤ) :
    Res ℚ × List (Nat × ℤ) :=
  match cartGet c pid with
  | Option.none => (Res.notFound, c)
  | some _ =>
    if q ≤ 0 then
      let c' := cartRemove c pid
      (Res.ok (calculate_cart_total db.products c'), c')
    else
      match findProduct db.products pid with
      | Option.none => (Res.notFound, c)
      | some p =>
        if q > p.stock then (Res.validationError "Insufficient stock", c)
        else
          let c' := cartSet c pid q
          (Res.ok (calculate_cart_total db.products c'), c')

/-- A product create / update request body.  `name`, `category`, `description`
and `image_url` are modelled at their column types; `price` and `stock` are
raw values still to be coerced by `float(...)` / `int(...)`.  An outer
`Option.none` means the key is absent from the JSON body. -/
structure ProductReq where
  name : Option String := Option.none
  description : Option (Option String) := Option.none
  price : Option PyVal := Option.none
  stock : Option PyVal := Option.none
  category : Option String := Option.none
  image_url : Option (Option String) := Option.none
  deriving DecidableEq, Repr

/-- POST /api/products (src/app.py lines 215-238).  Missing `name`, `price` or
`category` is a 400; a price or stock value `float(...)`/`int(...)` refuses
raises an uncaught exception, i.e. a 500, and nothing is committed. -/
def createProduct (db : DB) (now : Nat) (req : ProductReq) : Res Product × DB :=
  match req.name, req.price, req.category with
  | some name, some priceV, some category =>
    (match pyFloat priceV with
     | Option.none => (Res.internalError, db)
     | some price =>
       match pyInt (req.stock.getD (PyVal.int 0)) with
       | Option.none => (Res.internalError, db)
       | some stock =>
         let p : Product :=
           ⟨db.nextProductId, name, req.description.getD Option.none, price, stock,
            category, req.image_url.getD Option.none, now, now⟩
         (Res.ok p,
          { db with products := db.products ++ [p],
                    nextProductId := db.nextProductId + 1 }))
  | _, _, _ => (Res.validationError "Missing required fields", db)

/-- GET /api/products/id (src/app.py lines 244-247): `get_or_404` then the
row. -/
def getProduct (db : DB) (pid : Nat) : Res Product :=
  match findProduct db.products pid with
  | Option.none => Res.notFound
  | some p => Res.ok p

/-- PUT /api/products/id (src/app.py lines 249-265): partial update, absent
keys keep the previous value, `updated_at` refreshed; a value `float`/`int`
refuses is an uncaught exception (500) and the transaction is rolled back. -/
def updateProduct (db : DB) (now : Nat) (pid : Nat) (req : ProductReq) :
    Res Product × DB :=
  match findProduct db.products pid with
  | Option.none => (Res.notFound, db)
  | some p =>
    match pyFloat (req.price.getD (PyVal.float p.price)) with
    | Option.none => (Res.internalError, db)
    | some price =>
      match pyInt (req.stock.getD (PyVal.int p.stock)) with
      | Option.none => (Res.internalError, db)
      | some stock =>
        let pn : Product :=
          { p with
              name := req.name.getD p.name,
              description := req.description.getD p.description,
              price := price,
              stock := stock,
              category := req.category.getD p.category,
              image_url := req.image_url.getD p.image_url,
              updated_at := now }
        (Res.ok pn, { db with products := setProduct db.products pn })

/-- The checkout stock-availability loop (src/app.py lines 397-400): the first
cart entry whose product is missing or has too little stock, if any. -/
def stockCheck (ps : List Product) : List (Nat × ℤ) → Option Nat
  | [] => Option.none
  | (pid, q) :: rest =>
    match findProduct ps pid with
    | Option.none => some pid
    | some p => if q > p.stock then some pid else stockCheck ps rest

/-- The claim-side reading of one failing stock check: the entry's product is
missing, or its stock is below the requested quantity. -/
def entryShort (ps : List Product) (kv : Nat × ℤ) : Prop :=
  match findProduct ps kv.1 with
  | Option.none => True
  | some p => kv.2 > p.stock

instance (ps : List Product) (kv : Nat × ℤ) : Decidable (entryShort ps kv) := by
  unfold entryShort
  match findProduct ps kv.1 with
  | Option.none => exact inferInstanceAs (Decidable True)
  | some p => exact inferInstanceAs (Decidable (kv.2 > p.stock))

/-- The successful payload of POST /api/checkout: the created order row and
its line items. -/
structure CheckoutOk where
  order : Order
  items : List OrderItem
  deriving DecidableEq, Repr

/-- `failAfter.pred`-style step of the failure-injection counter. -/
def decFail : Option Nat → Option Nat
  | some (k + 1) => some k
  | x => x

/-- The order-item creation loop of checkout (src/app.py lines 417-428), run
against the in-transaction state: builds the staged line items and the staged
product rows (stock decremented).  The `Bool` is false when the loop aborted —
either through the injected failure `failAfter` or a vanished product row —
in which case the transaction never reaches `commit` and is rolled back. -/
def checkoutLoop (oid : Nat) :
    Nat → List Product → List (Nat × ℤ) → Option Nat →
      List OrderItem × List Product × Bool
  | _, ps, [], _ => ([], ps, true)
  | nid, ps, (pid, q) :: rest, failAfter =>
    if failAfter = some 0 then ([], ps, false)
    else
      match findProduct ps pid with
      | Option.none => ([], ps, false)
      | some p =>
        let item : OrderItem := ⟨nid, oid, p.id, q, p.price⟩
        let step := checkoutLoop oid (nid + 1) (decStock ps pid q) rest (decFail failAfter)
        (item :: step.1, step.2.1, step.2.2)

/-- POST /api/checkout handler body (src/app.py lines 384-445), i.e. the code
after the `login_required` guard; `session.get('user_id')` is `sess.user_id`.
`failAfter` injects a crash after that many iterations of the order-item loop
(`Option.none`: no injected failure).  Returns the response, the persisted
database (unchanged unless `commit` was reached) and the session after the
call. -/
def checkout (db : DB) (sess : Session) (addr : Option String) (now : Nat)
    (failAfter : Option Nat) : Res CheckoutOk × DB × Session :=
  if sess.cart = [] then (Res.validationError "Cart is empty", db, sess)
  else
    match addr with
    | Option.none => (Res.validationError "Shipping address is required", db, sess)
    | some a =>
      if a = "" then (Res.validationError "Shipping address is required", db, sess)
      else
        match stockCheck db.products sess.cart with
        | some pid =>
          (Res.validationError ("Insufficient stock for product " ++ toString pid),
           db, sess)
        | Option.none =>
          let total := calculate_cart_total db.products sess.cart
          let order : Order :=
            ⟨db.nextOrderId, sess.user_id, total, "completed", a, now⟩
          let step := checkoutLoop order.id db.nextItemId db.products sess.cart failAfter
          if step.2.2 then
            (Res.ok ⟨order, step.1⟩,
             { db with
                 products := step.2.1,
                 orders := db.orders ++ [order],
                 order_items := db.order_items ++ step.1,
                 nextOrderId := db.nextOrderId + 1,
                 nextItemId := db.nextItemId + step.1.length },
             { sess with cart := [] })
          else (Res.internalError, db, sess)

/-- GET /api/orders/id (src/app.py lines 468-489), including the
`login_required` guard: a session with no identity is redirected to the login
page before the handler runs. -/
def get_order_detail (db : DB) (sess : Session) (oid : Nat) :
    Res (Order × List OrderItem) :=
  match sess.user_id with
  | Option.none => Res.redirectLogin
  | some uid =>
    match findOrder db.orders oid with
    | Option.none => Res.notFound
    | some o =>
      if o.user_id ≠ some uid then Res.forbidden
      else Res.ok (o, orderItemsOf db o.id)

/-- Sum of `price * quantity` over a list of order line items. -/
def itemsSum : List OrderItem → ℚ
  | [] => 0
  | it :: rest => it.price * (it.quantity : ℚ) + itemsSum rest

/-! ### Helper lemmas about the store and cart primitives -/

theorem cartSet_of_get_none (c : List (Nat × ℤ)) (pid : Nat) (q : ℤ)
    (h : cartGet c pid = Option.none) : cartSet c pid q = c ++ [(pid, q)] := by
  induction c with
  | nil => rfl
  | cons kv rest ih =>
    obtain ⟨k, v⟩ := kv
    by_cases hk : k = pid
    · simp [cartGet, hk] at h
    · simp only [cartGet, if_neg hk] at h
      simp [cartSet, hk, ih h]

theorem cartQty_eq_zero (c : List (Nat × ℤ)) (pid : Nat)
    (h : pid ∉ c.map Prod.fst) : cartQty c pid = 0 := by
  induction c with
  | nil => rfl
  | cons kv rest ih =>
    simp only [List.map_cons, List.mem_cons, not_or] at h
    have hk : kv.1 ≠ pid := fun he => h.1 he.symm
    obtain ⟨k, v⟩ := kv
    simp only [cartQty, if_neg hk, ih h.2, add_zero]

theorem cartQty_eq_of_mem (c : List (Nat × ℤ)) (pid : Nat) (q : ℤ)
    (hnd : (c.map Prod.fst).Nodup) (h : (pid, q) ∈ c) : cartQty c pid = q := by
  induction c with
  | nil => cases h
  | cons kv rest ih =>
    obtain ⟨k, v⟩ := kv
    simp only [List.map_cons, List.nodup_cons] at hnd
    rcases List.mem_cons.1 h with heq | hmem
    · injection heq with h1 h2
      subst h1; subst h2
      have hz : pid ∉ rest.map Prod.fst := by simpa using hnd.1
      simp [cartQty, cartQty_eq_zero rest pid hz]
    · have hk : k ≠ pid := by
        intro he
        subst he
        have hz : k ∉ rest.map Prod.fst := by simpa using hnd.1
        exact hz (List.mem_map_of_mem Prod.fst hmem)
      simp only [cartQty, if_neg hk, ih hnd.2 hmem, zero_add]

theorem findProduct_eq_some (ps : List Product) (pid : Nat) (p : Product)
    (h : findProduct ps pid = some p) : p.id = pid ∧ p ∈ ps := by
  induction ps with
  | nil => cases h
  | cons a ps ih =>
    by_cases ha : a.id = pid
    · simp only [findProduct, if_pos ha] at h
      injection h with h'
      subst h'
      exact ⟨ha, List.mem_cons_self a ps⟩
    · simp only [findProduct, if_neg ha] at h
      obtain ⟨h1, h2⟩ := ih h
      exact ⟨h1, List.mem_cons_of_mem a h2⟩

theorem findProduct_of_mem (ps : List Product) (p : Product)
    (hnd : (ps.map Product.id).Nodup) (hp : p ∈ ps) :
    findProduct ps p.id = some p := by
  induction ps with
  | nil => cases hp
  | cons a ps ih =>
    simp only [List.map_cons, List.nodup_cons] at hnd
    rcases List.mem_cons.1 hp with heq | hmem
    · subst heq
      simp [findProduct]
    · have ha : a.id ≠ p.id := by
        intro he
        exact hnd.1 (he ▸ List.mem_map_of_mem Product.id hmem)
      simp only [findProduct, if_neg ha]
      exact ih hnd.2 hmem

theorem findProduct_setProduct (ps : List Product) (pn : Product) (pid : Nat)
    (hid : pn.id = pid) (h : (findProduct ps pid).isSome) :
    findProduct (setProduct ps pn) pid = some pn := by
  induction ps with
  | nil => simp [findProduct] at h
  | cons a ps ih =>
    by_cases ha : a.id = pid
    · simp [setProduct, findProduct, ha, hid]
    · have h' : (findProduct ps pid).isSome := by
        simpa [findProduct, if_neg ha] using h
      have hane : a.id ≠ pn.id := fun he => ha (he.trans hid)
      simp only [setProduct, if_neg hane, findProduct, if_neg ha]
      exact ih h'

theorem decStock_eq_map (ps : List Product) (pid : Nat) (q : ℤ) :
    decStock ps pid q =
      ps.map (fun p => if p.id = pid then { p with stock := p.stock - q } else p) := by
  induction ps with
  | nil => rfl
  | cons p ps ih => simp [decStock, ih]

theorem findProduct_decStock (ps : List Product) (x : Nat) (q : ℤ) (pid : Nat) :
    findProduct (decStock ps x q) pid =
      (findProduct ps pid).map
        (fun p => if p.id = x then { p with stock := p.stock - q } else p) := by
  induction ps with
  | nil => rfl
  | cons p ps ih =>
    have hid : (if p.id = x then { p with stock := p.stock - q } else p).id = p.id := by
      by_cases hx : p.id = x <;> simp [hx]
    simp only [decStock, findProduct, hid]
    by_cases h : p.id = pid
    · rw [if_pos h, if_pos h, Option.map_some']
    · rw [if_neg h, if_neg h, ih]

theorem cartRawTotal_decStock (ps : List Product) (x : Nat) (q : ℤ)
    (c : List (Nat × ℤ)) : cartRawTotal (decStock ps x q) c = cartRawTotal ps c := by
  induction c with
  | nil => rfl
  | cons kv rest ih =>
    obtain ⟨pid, qq⟩ := kv
    simp only [cartRawTotal, findProduct_decStock, ih]
    cases hf : findProduct ps pid with
    | none => simp
    | some p => by_cases h : p.id = x <;> simp [h]

theorem cartRawTotal_filter (ps : List Product) (c : List (Nat × ℤ)) :
    cartRawTotal ps c =
      cartRawTotal ps (c.filter (fun kv => (findProduct ps kv.1).isSome)) := by
  induction c with
  | nil => rfl
  | cons kv rest ih =>
    obtain ⟨pid, q⟩ := kv
    cases hf : findProduct ps pid with
    | none => simp [cartRawTotal, hf, List.filter_cons, ih]
    | some p => simp [cartRawTotal, hf, List.filter_cons, ih]

theorem buildItems_length (db : DB) (c : List (Nat × ℤ)) :
    (buildItems db c).length =
      (c.filter (fun kv => (findProduct db.products kv.1).isSome)).length := by
  induction c with
  | nil => rfl
  | cons kv rest ih =>
    obtain ⟨pid, q⟩ := kv
    cases hf : findProduct db.products pid with
    | none => simp [buildItems, hf, List.filter_cons, ih]
    | some p => simp [buildItems, hf, List.filter_cons, ih]

/-! ### Helper lemmas about the checkout transaction -/

theorem stockCheck_none_iff (ps : List Product) (c : List (Nat × ℤ)) :
    stockCheck ps c = Option.none ↔ ∀ kv ∈ c, ¬ entryShort ps kv := by
  induction c with
  | nil => simp [stockCheck]
  | cons kv rest ih =>
    obtain ⟨pid, q⟩ := kv
    cases hf : findProduct ps pid with
    | none =>
      simp only [stockCheck, hf]
      constructor
      · intro h; cases h
      · intro h
        exact absurd (by simp [entryShort, hf] : entryShort ps (pid, q))
          (h (pid, q) (List.mem_cons_self _ _))
    | some p =>
      by_cases hq : q > p.stock
      · simp only [stockCheck, hf, if_pos hq]
        constructor
        · intro h; cases h
        · intro h
          exact absurd (by simp [entryShort, hf, hq] : entryShort ps (pid, q))
            (h (pid, q) (List.mem_cons_self _ _))
      · simp only [stockCheck, hf, if_neg hq, ih]
        constructor
        · intro h kv hkv
          rcases List.mem_cons.1 hkv with heq | hmem
          · subst heq
            simp [entryShort, hf]
            exact le_of_not_lt hq
          · exact h kv hmem
        · intro h kv hkv
          exact h kv (List.mem_cons_of_mem _ hkv)

theorem stockCheck_none_found (ps : List Product) (c : List (Nat × ℤ))
    (h : stockCheck ps c = Option.none) :
    ∀ kv ∈ c, ∃ p, findProduct ps kv.1 = some p ∧ kv.2 ≤ p.stock := by
  intro kv hkv
  have hne := (stockCheck_none_iff ps c).1 h kv hkv
  unfold entryShort at hne
  cases hf : findProduct ps kv.1 with
  | none => rw [hf] at hne; exact absurd trivial hne
  | some p =>
    rw [hf] at hne
    exact ⟨p, rfl, le_of_not_lt hne⟩

theorem checkoutLoop_ok (oid : Nat) (c : List (Nat × ℤ)) :
    ∀ (nid : Nat) (ps : List Product) (fa : Option Nat),
      (checkoutLoop oid nid ps c fa).2.2 = true →
      (checkoutLoop oid nid ps c fa).1.length = c.length ∧
      (checkoutLoop oid nid ps c fa).2.1 =
        ps.map (fun p => { p with stock := p.stock - cartQty c p.id }) ∧
      itemsSum (checkoutLoop oid nid ps c fa).1 = cartRawTotal ps c ∧
      ∀ it ∈ (checkoutLoop oid nid ps c fa).1, it.order_id = oid := by
  induction c with
  | nil =>
    intro nid ps fa _
    refine ⟨rfl, ?_, rfl, by intro it h; cases h⟩
    have : ∀ p : Product, { p with stock := p.stock - cartQty [] p.id } = p := by
      intro p; simp [cartQty]
    simp only [checkoutLoop, this, List.map_id']
  | cons kv rest ih =>
    intro nid ps fa hok
    obtain ⟨pid, q⟩ := kv
    by_cases hfa : fa = some 0
    · rw [show (checkoutLoop oid nid ps ((pid, q) :: rest) fa) =
            ([], ps, false) by simp [checkoutLoop, hfa]] at hok
      cases hok
    · cases hf : findProduct ps pid with
      | none =>
        rw [show (checkoutLoop oid nid ps ((pid, q) :: rest) fa) =
              ([], ps, false) by simp [checkoutLoop, hfa, hf]] at hok
        cases hok
      | some p =>
        have hstep :
            checkoutLoop oid nid ps ((pid, q) :: rest) fa =
              (⟨nid, oid, p.id, q, p.price⟩ ::
                 (checkoutLoop oid (nid + 1) (decStock ps pid q) rest (decFail fa)).1,
               (checkoutLoop oid (nid + 1) (decStock ps pid q) rest (decFail fa)).2.1,
               (checkoutLoop oid (nid + 1) (decStock ps pid q) rest (decFail fa)).2.2) := by
          simp [checkoutLoop, hfa, hf]
        rw [hstep] at hok ⊢
        obtain ⟨hlen, hps, hsum, hoid⟩ := ih (nid + 1) (decStock ps pid q) (decFail fa) hok
        refine ⟨by simp [hlen], ?_, ?_, ?_⟩
        · rw [hps, decStock_eq_map, List.map_map]
          apply List.map_congr_left
          intro p0 _
          by_cases h0 : p0.id = pid
          · simp [Function.comp, h0, cartQty, sub_sub]
          · have : ¬ pid = p0.id := fun he => h0 he.symm
            simp [Function.comp, h0, cartQty, this]
        · simp only [itemsSum, hsum, cartRawTotal_decStock]
          simp [cartRawTotal, hf]
        · intro it hit
          rcases List.mem_cons.1 hit with heq | hmem
          · subst heq; rfl
          · exact hoid it hmem

theorem checkoutLoop_ok_of_found (oid : Nat) (c : List (Nat × ℤ)) :
    ∀ (nid : Nat) (ps : List Product),
      (∀ kv ∈ c, (findProduct ps kv.1).isSome) →
      (checkoutLoop oid nid ps c Option.none).2.2 = true := by
  induction c with
  | nil => intro nid ps _; rfl
  | cons kv rest ih =>
    intro nid ps hall
    obtain ⟨pid, q⟩ := kv
    have h1 : (findProduct ps pid).isSome := hall (pid, q) (List.mem_cons_self _ _)
    cases hf : findProduct ps pid with
    | none => rw [hf] at h1; cases h1
    | some p =>
      have h2 : ∀ kv ∈ rest, (findProduct (decStock ps pid q) kv.1).isSome := by
        intro kv hkv
        have := hall kv (List.mem_cons_of_mem _ hkv)
        rw [findProduct_decStock]
        simpa using this
      have := ih (nid + 1) (decStock ps pid q) h2
      simpa [checkoutLoop, hf, decFail] using this

/-- Full case analysis of the checkout handler: either nothing is persisted and
the response is not `ok`, or the request succeeded and the persisted state is
described completely. -/
theorem checkout_cases (db : DB) (sess : Session) (addr : Option String)
    (now : Nat) (fa : Option Nat) :
    ((checkout db sess addr now fa).2.1 = db ∧
     (checkout db sess addr now fa).2.2 = sess ∧
     ∀ o, (checkout db sess addr now fa).1 ≠ Res.ok o) ∨
    (∃ a, addr = some a ∧ a ≠ "" ∧ sess.cart ≠ [] ∧
      stockCheck db.products sess.cart = Option.none ∧
      ∃ items,
        (checkout db sess addr now fa).1 =
          Res.ok ⟨⟨db.nextOrderId, sess.user_id,
                   calculate_cart_total db.products sess.cart,
                   "completed", a, now⟩, items⟩ ∧
        items.length = sess.cart.length ∧
        itemsSum items = cartRawTotal db.products sess.cart ∧
        (∀ it ∈ items, it.order_id = db.nextOrderId) ∧
        (checkout db sess addr now fa).2.1 =
          { db with
              products := db.products.map
                (fun p => { p with stock := p.stock - cartQty sess.cart p.id }),
              orders := db.orders ++
                [⟨db.nextOrderId, sess.user_id,
                  calculate_cart_total db.products sess.cart, "completed", a, now⟩],
              order_items := db.order_items ++ items,
              nextOrderId := db.nextOrderId + 1,
              nextItemId := db.nextItemId + items.length } ∧
        (checkout db sess addr now fa).2.2 = { sess with cart := [] }) := by
  by_cases h1 : sess.cart = []
  · left
    refine ⟨?_, ?_, ?_⟩ <;> simp [checkout, h1]
  · cases addr with
    | none =>
      left
      refine ⟨?_, ?_, ?_⟩ <;> simp [checkout, h1]
    | some a =>
      by_cases h2 : a = ""
      · left
        refine ⟨?_, ?_, ?_⟩ <;> simp [checkout, h1, h2]
      · cases hsc : stockCheck db.products sess.cart with
        | some pid =>
          left
          refine ⟨?_, ?_, ?_⟩ <;> simp [checkout, h1, h2, hsc]
        | none =>
          cases hok : (checkoutLoop db.nextOrderId db.nextItemId db.products
              sess.cart fa).2.2 with
          | false =>
            left
            refine ⟨?_, ?_, ?_⟩ <;> simp [checkout, h1, h2, hsc, hok]
          | true =>
            right
            obtain ⟨hlen, hps, hsum, hoid⟩ :=
              checkoutLoop_ok db.nextOrderId sess.cart db.nextItemId db.products fa hok
            refine ⟨a, rfl, h2, h1, ?_,
              (checkoutLoop db.nextOrderId db.nextItemId db.products sess.cart fa).1,
              ?_, hlen, hsum, hoid, ?_, ?_⟩ <;>
              simp [checkout, h1, h2, hsc, hok, hps]

/-! ### Concrete fixtures used by witnesses and counterexamples -/

attribute [local semireducible] Rat.add Rat.mul Rat.inv Rat.sub

/-- An empty store. -/
def dbEmpty : DB := ⟨[], [], [], 1, 1, 1⟩

/-- A store with two in-stock products (prices with two decimals). -/
def dbW : DB :=
  ⟨[⟨1, "Laptop", some "High-performance laptop", 99999/100, 10, "Electronics",
     Option.none, 0, 0⟩,
    ⟨2, "T-Shirt", some "Cotton t-shirt", 2999/100, 50, "Clothing",
     Option.none, 0, 0⟩], [], [], 3, 1, 1⟩

/-- The Laptop row of `dbW`. -/
def pW : Product :=
  ⟨1, "Laptop", some "High-performance laptop", 99999/100, 10, "Electronics",
   Option.none, 0, 0⟩

/-- A logged-in session holding a two-item cart over `dbW`. -/
def sessW : Session := ⟨some 1, [(1, 2), (2, 3)]⟩

/-- A logged-in session holding a one-entry cart over `dbW`. -/
def sessW1 : Session := ⟨some 1, [(1, 2)]⟩

/-- The checkout payload produced from `dbW` and `sessW1`. -/
def coW : CheckoutOk :=
  ⟨⟨1, some 1, 99999/50, "completed", "123 Main St", 0⟩, [⟨1, 1, 1, 2, 99999/100⟩]⟩

/-- A store with one product whose price has three decimal places. -/
def dbQ : DB :=
  ⟨[⟨1, "Widget", Option.none, 333/1000, 5, "misc", Option.none, 0, 0⟩],
   [], [], 2, 1, 1⟩

/-- A logged-in session holding one unit of the three-decimal product. -/
def sessQ : Session := ⟨some 1, [(1, 1)]⟩

/-! ### The claims -/

/-- **C1.** Checkout's multi-row write is all-or-nothing: for every checkout
call (with any injected mid-loop failure point), either one Order row, one
OrderItem per cart entry, and every corresponding stock decrement are all
persisted, or the response is not a success and the database and session are
exactly as before — no order, no items, no stock change. -/
theorem checkout_atomic (db : DB) (sess : Session) (addr : Option String)
    (now : Nat) (fa : Option Nat) :
    (∃ o, (checkout db sess addr now fa).1 = Res.ok o ∧
      (checkout db sess addr now fa).2.1.orders = db.orders ++ [o.order] ∧
      (checkout db sess addr now fa).2.1.order_items = db.order_items ++ o.items ∧
      o.items.length = sess.cart.length ∧
      (∀ it ∈ o.items, it.order_id = o.order.id) ∧
      (checkout db sess addr now fa).2.1.products =
        db.products.map
          (fun p => { p with stock := p.stock - cartQty sess.cart p.id })) ∨
    ((checkout db sess addr now fa).2.1 = db ∧
     (checkout db sess addr now fa).2.2 = sess ∧
     ∀ o, (checkout db sess addr now fa).1 ≠ Res.ok o) := by
  rcases checkout_cases db sess addr now fa with
    h | ⟨a, _, _, _, _, items, hok, hlen, _, hoid, hdb, _⟩
  · right; exact h
  · left
    exact ⟨⟨⟨db.nextOrderId, sess.user_id, calculate_cart_total db.products sess.cart,
             "completed", a, now⟩, items⟩,
           hok, by rw [hdb], by rw [hdb], hlen, hoid, by rw [hdb]⟩

/-- Witness for C1: in `dbW`/`sessW` (two-entry cart) with a failure injected
after the first loop iteration, the persisted store and the session cart are
exactly the original ones. -/
theorem checkout_atomic_witness :
    (checkout dbW sessW (some "123 Main St") 0 (some 1)).2.1 = dbW ∧
    (checkout dbW sessW (some "123 Main St") 0 (some 1)).2.2 = sessW := by
  rcases checkout_atomic dbW sessW (some "123 Main St") 0 (some 1) with
    ⟨o, hok, _⟩ | ⟨h1, h2, _⟩
  · have hval : (checkout dbW sessW (some "123 Main St") 0 (some 1)).1 =
        Res.internalError := by decide
    rw [hval] at hok
    cases hok
  · exact ⟨h1, h2⟩

/-- **C2 (amended).** For every successful checkout, the persisted
`total_amount` equals the sum over cart entries of price-at-checkout ×
quantity **rounded to 2 decimals**, and the sum of `OrderItem.price ×
quantity` equals that same sum **unrounded** — so the two agree exactly when
the unrounded sum already has at most two decimals. -/
theorem checkout_total (db : DB) (sess : Session) (addr : Option String)
    (now : Nat) (o : CheckoutOk)
    (h : (checkout db sess addr now Option.none).1 = Res.ok o) :
    o.order.total_amount = round2 (cartRawTotal db.products sess.cart) ∧
    itemsSum o.items = cartRawTotal db.products sess.cart := by
  rcases checkout_cases db sess addr now Option.none with
    ⟨_, _, hno⟩ | ⟨a, _, _, _, _, items, hok, _, hsum, _, _, _⟩
  · exact absurd h (hno o)
  · rw [h] at hok
    injection hok with hoeq
    subst hoeq
    exact ⟨rfl, hsum⟩

/-- Witness for C2's amended theorem: concrete checkout of 2 × 999.99. -/
theorem checkout_total_witness :
    coW.order.total_amount = round2 (cartRawTotal dbW.products sessW1.cart) ∧
    itemsSum coW.items = cartRawTotal dbW.products sessW1.cart :=
  checkout_total dbW sessW1 (some "123 Main St") 0 coW (by decide)

/-- Counterexample to C2 as stated: with a product priced 0.333, checkout
succeeds with `total_amount = 0.33` but the sum of `OrderItem.price ×
quantity` is 0.333 — the persisted total does **not** equal the line-item
sum. -/
theorem checkout_total_cex :
    (checkout dbQ sessQ (some "123 Main St") 0 Option.none).1 =
      Res.ok ⟨⟨1, some 1, 33/100, "completed", "123 Main St", 0⟩,
              [⟨1, 1, 1, 1, 333/1000⟩]⟩ ∧
    itemsSum [(⟨1, 1, 1, 1, 333/1000⟩ : OrderItem)] ≠ (33/100 : ℚ) := by
  exact ⟨by decide, by decide⟩

/-- **C3.** The checkout handler fails with a 400 `ValidationError` and
persists nothing exactly when a precondition is violated, in this order:
empty cart; empty/absent shipping address; some cart entry with a missing
product or with quantity above its stock.  When none of these hold (and no
failure is injected) checkout succeeds. -/
theorem checkout_preconditions (db : DB) (sess : Session) (addr : Option String)
    (now : Nat) :
    (sess.cart = [] →
      checkout db sess addr now Option.none =
        (Res.validationError "Cart is empty", db, sess)) ∧
    (sess.cart ≠ [] → (addr = Option.none ∨ addr = some "") →
      checkout db sess addr now Option.none =
        (Res.validationError "Shipping address is required", db, sess)) ∧
    (∀ a, sess.cart ≠ [] → addr = some a → a ≠ "" →
      (∃ kv ∈ sess.cart, entryShort db.products kv) →
      ∃ pid : Nat, checkout db sess addr now Option.none =
        (Res.validationError ("Insufficient stock for product " ++ toString pid),
         db, sess)) ∧
    (∀ a, sess.cart ≠ [] → addr = some a → a ≠ "" →
      (∀ kv ∈ sess.cart, ¬ entryShort db.products kv) →
      ∃ o, (checkout db sess addr now Option.none).1 = Res.ok o) := by
  refine ⟨?_, ?_, ?_, ?_⟩
  · intro h1
    simp [checkout, h1]
  · intro h1 h2
    rcases h2 with rfl | rfl <;> simp [checkout, h1]
  · rintro a h1 rfl ha hbad
    cases hsc : stockCheck db.products sess.cart with
    | none =>
      obtain ⟨kv, hkv, hshort⟩ := hbad
      exact absurd hshort ((stockCheck_none_iff db.products sess.cart).1 hsc kv hkv)
    | some pid =>
      exact ⟨pid, by simp [checkout, h1, ha, hsc]⟩
  · rintro a h1 rfl ha hgood
    have hsc : stockCheck db.products sess.cart = Option.none :=
      (stockCheck_none_iff db.products sess.cart).2 hgood
    have hfound : ∀ kv ∈ sess.cart, (findProduct db.products kv.1).isSome := by
      intro kv hkv
      obtain ⟨p, hp, _⟩ := stockCheck_none_found db.products sess.cart hsc kv hkv
      simp [hp]
    have hok := checkoutLoop_ok_of_found db.nextOrderId sess.cart db.nextItemId
      db.products hfound
    exact ⟨⟨⟨db.nextOrderId, sess.user_id, calculate_cart_total db.products sess.cart,
             "completed", a, now⟩,
            (checkoutLoop db.nextOrderId db.nextItemId db.products sess.cart
               Option.none).1⟩,
           by simp [checkout, h1, ha, hsc, hok]⟩

/-- Witness for C3: an empty cart is rejected with "Cart is empty" and nothing
changes. -/
theorem checkout_preconditions_witness :
    checkout dbW ⟨some 1, []⟩ (some "123 Main St") 0 Option.none =
      (Res.validationError "Cart is empty", dbW, ⟨some 1, []⟩) :=
  (checkout_preconditions dbW ⟨some 1, []⟩ (some "123 Main St") 0).1 rfl

/-- Counterexample to C4 as stated: POST /api/products accepts a negative
stock value verbatim — after one create call the store holds a product with
stock −1, so the system-wide "stock never negative" invariant fails. -/
theorem stock_nonneg_cex :
    (createProduct dbEmpty 0
        { name := some "Gadget", price := some (PyVal.int 10),
          stock := some (PyVal.int (-1)), category := some "misc" }).1 =
      Res.ok ⟨1, "Gadget", Option.none, 10, -1, "misc", Option.none, 0, 0⟩ ∧
    (createProduct dbEmpty 0
        { name := some "Gadget", price := some (PyVal.int 10),
          stock := some (PyVal.int (-1)), category := some "misc" }).2.products.map
      Product.stock = [-1] ∧
    ¬ (0 : ℤ) ≤ -1 := by
  exact ⟨by decide, by decide, by decide⟩

/-- **C4 (amended).** Checkout — the only operation that decrements stock —
preserves non-negativity of every product's stock (for well-formed states:
unique product ids, unique cart keys).  The system-wide claim fails because
catalog create/update accept negative stock values directly (see the
counterexample). -/
theorem checkout_stock_nonneg (db : DB) (sess : Session) (addr : Option String)
    (now : Nat) (fa : Option Nat)
    (hpid : (db.products.map Product.id).Nodup)
    (hkeys : (sess.cart.map Prod.fst).Nodup)
    (hpos : ∀ p ∈ db.products, 0 ≤ p.stock) :
    ∀ p ∈ (checkout db sess addr now fa).2.1.products, 0 ≤ p.stock := by
  rcases checkout_cases db sess addr now fa with
    ⟨hdb, _, _⟩ | ⟨a, _, _, _, hsc, items, _, _, _, _, hdb, _⟩
  · rw [hdb]; exact hpos
  · rw [hdb]
    intro p hp
    simp only [List.mem_map] at hp
    obtain ⟨p0, hp0, rfl⟩ := hp
    show 0 ≤ p0.stock - cartQty sess.cart p0.id
    by_cases hmem : p0.id ∈ sess.cart.map Prod.fst
    · obtain ⟨kv, hkv, hk⟩ := List.mem_map.1 hmem
      obtain ⟨k, q⟩ := kv
      have hk' : k = p0.id := hk
      subst hk'
      obtain ⟨pf, hpf, hle⟩ :=
        stockCheck_none_found db.products sess.cart hsc (p0.id, q) hkv
      have hself : findProduct db.products p0.id = some p0 :=
        findProduct_of_mem db.products p0 hpid hp0
      have hpf2 : findProduct db.products p0.id = some pf := hpf
      rw [hself] at hpf2
      injection hpf2 with hpf'
      subst hpf'
      have hq : cartQty sess.cart p0.id = q := cartQty_eq_of_mem _ _ _ hkeys hkv
      have hle2 : q ≤ p0.stock := hle
      omega
    · rw [cartQty_eq_zero _ _ hmem, sub_zero]
      exact hpos p0 hp0

/-- Witness for C4's amended theorem: after the concrete checkout of `sessW`
over `dbW`, the Laptop row still has non-negative stock. -/
theorem checkout_stock_nonneg_witness :
    (0 : ℤ) ≤
      (⟨1, "Laptop", some "High-performance laptop", 99999/100, 8, "Electronics",
        Option.none, 0, 0⟩ : Product).stock := by
  have h := checkout_stock_nonneg dbW sessW (some "123 Main St") 0 Option.none
    (by decide) (by decide) (by decide)
  exact h _ (by decide)

/-- **C5.** Add-to-cart: missing product is a 404; a requested quantity above
the product's current stock is a 400 with the stored cart unchanged;
otherwise the quantity is summed into an existing entry or a new entry is
appended.  The stock check compares only this call's requested quantity
(`q > stock`), never the combined amount after re-adding — the third case
holds for an arbitrary existing quantity `old`. -/
theorem cart_add_spec (db : DB) (c : List (Nat × ℤ)) (pid : Nat) (q : ℤ) :
    (findProduct db.products pid = Option.none →
      addToCart db c pid q = (Res.notFound, c)) ∧
    (∀ p, findProduct db.products pid = some p → q > p.stock →
      addToCart db c pid q = (Res.validationError "Insufficient stock", c)) ∧
    (∀ p old, findProduct db.products pid = some p → ¬ q > p.stock →
      cartGet c pid = some old →
      addToCart db c pid q =
        (Res.ok (cartSet c pid (old + q),
                 calculate_cart_total db.products (cartSet c pid (old + q))),
         cartSet c pid (old + q))) ∧
    (∀ p, findProduct db.products pid = some p → ¬ q > p.stock →
      cartGet c pid = Option.none →
      addToCart db c pid q =
        (Res.ok (c ++ [(pid, q)],
                 calculate_cart_total db.products (c ++ [(pid, q)])),
         c ++ [(pid, q)])) := by
  refine ⟨?_, ?_, ?_, ?_⟩
  · intro h
    simp [addToCart, h]
  · intro p hp hq
    simp [addToCart, hp, hq]
  · intro p old hp hq hold
    simp [addToCart, hp, hq, hold]
  · intro p hp hq hold
    simp [addToCart, hp, hq, hold, cartSet_of_get_none c pid q hold]

/-- Witness for C5: product 1 has stock 10; the cart already holds 9 and a
further 9 are added — the combined 18 exceeds stock, yet the call succeeds
because only this call's quantity (9) is checked. -/
theorem cart_add_spec_witness :
    addToCart dbW [(1, 9)] 1 9 =
      (Res.ok (cartSet [(1, 9)] 1 (9 + 9),
               calculate_cart_total dbW.products (cartSet [(1, 9)] 1 (9 + 9))),
       cartSet [(1, 9)] 1 (9 + 9)) :=
  (cart_add_spec dbW [(1, 9)] 1 9).2.2.1
    ⟨1, "Laptop", some "High-performance laptop", 99999/100, 10, "Electronics",
     Option.none, 0, 0⟩
    9 (by decide) (by decide) (by decide)

/-- Counterexample to C6 as stated: with product 1 deleted from the catalog
but still in the cart with quantity 2, an update to the positive quantity 1
returns NotFound — not the ValidationError-or-replacement the claim promises
for ids that are present in the cart. -/
theorem cart_update_cex :
    cartGet [(1, 2)] 1 = some 2 ∧ (0 : ℤ) < 1 ∧
    (update_cart dbEmpty [(1, 2)] 1 1).1 = Res.notFound ∧
    (update_cart dbEmpty [(1, 2)] 1 1).2 = [(1, 2)] := by
  exact ⟨by decide, by decide, by decide, by decide⟩

/-- **C6 (amended).** Cart update: an id not in the stored cart is a 404;
quantity ≤ 0 removes the entry; for a positive quantity, a product that no
longer exists in the catalog is **also a 404** (this case is missing from the
claim); a quantity above stock is a 400 leaving the cart unchanged; otherwise
the entry's quantity is replaced, not summed. -/
theorem cart_update_spec (db : DB) (c : List (Nat × ℤ)) (pid : Nat) (q : ℤ) :
    (cartGet c pid = Option.none → update_cart db c pid q = (Res.notFound, c)) ∧
    (∀ old, cartGet c pid = some old → q ≤ 0 →
      update_cart db c pid q =
        (Res.ok (calculate_cart_total db.products (cartRemove c pid)),
         cartRemove c pid)) ∧
    (∀ old, cartGet c pid = some old → 0 < q →
      findProduct db.products pid = Option.none →
      update_cart db c pid q = (Res.notFound, c)) ∧
    (∀ old p, cartGet c pid = some old → 0 < q →
      findProduct db.products pid = some p → q > p.stock →
      update_cart db c pid q = (Res.validationError "Insufficient stock", c)) ∧
    (∀ old p, cartGet c pid = some old → 0 < q →
      findProduct db.products pid = some p → ¬ q > p.stock →
      update_cart db c pid q =
        (Res.ok (calculate_cart_total db.products (cartSet c pid q)),
         cartSet c pid q)) := by
  refine ⟨?_, ?_, ?_, ?_, ?_⟩
  · intro h
    simp [update_cart, h]
  · intro old hold hq
    simp [update_cart, hold, hq]
  · intro old hold hq hp
    simp [update_cart, hold, not_le.2 hq, hp]
  · intro old p hold hq hp hstock
    simp [update_cart, hold, not_le.2 hq, hp, hstock]
  · intro old p hold hq hp hstock
    simp [update_cart, hold, not_le.2 hq, hp, hstock]

/-- Witness for C6's amended theorem: replacing (not summing) the quantity of
an in-cart, in-stock product. -/
theorem cart_update_spec_witness :
    update_cart dbW [(1, 2)] 1 5 =
      (Res.ok (calculate_cart_total dbW.products (cartSet [(1, 2)] 1 5)),
       cartSet [(1, 2)] 1 5) :=
  (cart_update_spec dbW [(1, 2)] 1 5).2.2.2.2 2
    ⟨1, "Laptop", some "High-performance laptop", 99999/100, 10, "Electronics",
     Option.none, 0, 0⟩
    (by decide) (by decide) (by decide) (by decide)

/-- The store for the order-detail claims: one order owned by user 7. -/
def dbO : DB :=
  ⟨[], [⟨1, some 7, 100, "completed", "somewhere", 0⟩], [⟨1, 1, 1, 1, 100⟩], 1, 2, 2⟩

/-- Counterexample to C7 as stated: an unauthenticated (guest) session asking
for user 7's order is redirected to the login page by the `login_required`
decorator — it does not receive the Forbidden (403) the claim promises for a
non-matching identity. -/
theorem order_detail_guest_cex :
    get_order_detail dbO ⟨Option.none, []⟩ 1 = Res.redirectLogin ∧
    (Res.redirectLogin : Res (Order × List OrderItem)) ≠ Res.forbidden := by
  exact ⟨by decide, by decide⟩

/-- **C7 (amended).** Order detail: an unauthenticated session is redirected
to login before any check runs; for an authenticated session, a missing order
id is a 404, an order whose owner differs from the session's user (including
every guest-owned order) is a 403, and otherwise the order with its line
items is returned. -/
theorem order_detail_spec (db : DB) (sess : Session) (oid : Nat) :
    (sess.user_id = Option.none →
      get_order_detail db sess oid = Res.redirectLogin) ∧
    (∀ uid, sess.user_id = some uid → findOrder db.orders oid = Option.none →
      get_order_detail db sess oid = Res.notFound) ∧
    (∀ uid o, sess.user_id = some uid → findOrder db.orders oid = some o →
      o.user_id ≠ some uid → get_order_detail db sess oid = Res.forbidden) ∧
    (∀ uid o, sess.user_id = some uid → findOrder db.orders oid = some o →
      o.user_id = some uid →
      get_order_detail db sess oid = Res.ok (o, orderItemsOf db o.id)) := by
  refine ⟨?_, ?_, ?_, ?_⟩
  · intro h
    simp [get_order_detail, h]
  · intro uid hu ho
    simp [get_order_detail, hu, ho]
  · intro uid o hu ho hne
    simp [get_order_detail, hu, ho, hne]
  · intro uid o hu ho heq
    simp [get_order_detail, hu, ho, heq]

/-- Witness for C7's amended theorem: user 8's session asking for user 7's
order receives Forbidden. -/
theorem order_detail_spec_witness :
    get_order_detail dbO ⟨some 8, []⟩ 1 = Res.forbidden :=
  (order_detail_spec dbO ⟨some 8, []⟩ 1).2.2.1 8
    ⟨1, some 7, 100, "completed", "somewhere", 0⟩
    (by decide) (by decide) (by decide)

/-- Counterexample to C8 as stated: a non-numeric price (`null`) on a
product-create call raises an uncaught exception — a 500 internal error, not
the ValidationError (400) the claim promises. -/
theorem product_create_cex :
    (createProduct dbEmpty 0
        { name := some "Gadget", price := some PyVal.null,
          category := some "misc" }).1 = Res.internalError ∧
    ((createProduct dbEmpty 0
        { name := some "Gadget", price := some PyVal.null,
          category := some "misc" }).1).isValidation = false := by
  exact ⟨by decide, by decide⟩

/-- **C8 (amended).** Product create: a missing `name`, `price` or `category`
key is a 400 ValidationError, but a present, non-numeric price or stock value
makes `float(...)`/`int(...)` raise — an uncaught exception (500), not a
ValidationError; nothing is persisted in either case.  A fully coercible
request appends the new row. -/
theorem product_create_spec (db : DB) (now : Nat) (req : ProductReq) :
    ((req.name = Option.none ∨ req.price = Option.none ∨ req.category = Option.none) →
      createProduct db now req = (Res.validationError "Missing required fields", db)) ∧
    (∀ n pv cat, req.name = some n → req.price = some pv → req.category = some cat →
      pyFloat pv = Option.none →
      createProduct db now req = (Res.internalError, db)) ∧
    (∀ n pv cat pr, req.name = some n → req.price = some pv →
      req.category = some cat → pyFloat pv = some pr →
      pyInt (req.stock.getD (PyVal.int 0)) = Option.none →
      createProduct db now req = (Res.internalError, db)) ∧
    (∀ n pv cat pr st, req.name = some n → req.price = some pv →
      req.category = some cat → pyFloat pv = some pr →
      pyInt (req.stock.getD (PyVal.int 0)) = some st →
      createProduct db now req =
        (Res.ok ⟨db.nextProductId, n, req.description.getD Option.none, pr, st, cat,
                 req.image_url.getD Option.none, now, now⟩,
         { db with
             products := db.products ++
               [⟨db.nextProductId, n, req.description.getD Option.none, pr, st, cat,
                 req.image_url.getD Option.none, now, now⟩],
             nextProductId := db.nextProductId + 1 })) := by
  obtain ⟨nm, ds, pv0, st0, cat0, im⟩ := req
  refine ⟨?_, ?_, ?_, ?_⟩
  · rintro (rfl | rfl | rfl)
    · rfl
    · cases nm <;> rfl
    · cases nm
      · rfl
      · cases pv0 <;> rfl
  · rintro n pv cat rfl rfl rfl hfl
    simp [createProduct, hfl]
  · rintro n pv cat pr rfl rfl rfl hfl hint
    simp [createProduct, hfl, hint]
  · rintro n pv cat pr st rfl rfl rfl hfl hint
    simp [createProduct, hfl, hint]

/-- Witness for C8's amended theorem: a create call with no price key is
rejected with the 400 "Missing required fields". -/
theorem product_create_spec_witness :
    createProduct dbEmpty 0 { name := some "Gadget", category := some "misc" } =
      (Res.validationError "Missing required fields", dbEmpty) :=
  (product_create_spec dbEmpty 0
    { name := some "Gadget", category := some "misc" }).1 (Or.inr (Or.inl rfl))

/-- **C9.** Product update: an absent id is a 404 for every request body; a
price-only update sets exactly the price and `updated_at`, every other field
and every other row kept, and a subsequent get returns the updated row; in a
general partial update every unsupplied field keeps its prior value while
`updated_at` is refreshed. -/
theorem product_update_frame (db : DB) (now : Nat) (pid : Nat) :
    (findProduct db.products pid = Option.none →
      ∀ req, updateProduct db now pid req = (Res.notFound, db)) ∧
    (∀ p (x : ℚ), findProduct db.products pid = some p →
      updateProduct db now pid { price := some (PyVal.float x) } =
        (Res.ok { p with price := x, updated_at := now },
         { db with products :=
             setProduct db.products { p with price := x, updated_at := now } }) ∧
      getProduct
          { db with products :=
              setProduct db.products { p with price := x, updated_at := now } } pid =
        Res.ok { p with price := x, updated_at := now }) ∧
    (∀ p req pr st, findProduct db.products pid = some p →
      pyFloat (req.price.getD (PyVal.float p.price)) = some pr →
      pyInt (req.stock.getD (PyVal.int p.stock)) = some st →
      updateProduct db now pid req =
        (Res.ok { p with
                    name := req.name.getD p.name,
                    description := req.description.getD p.description,
                    price := pr, stock := st,
                    category := req.category.getD p.category,
                    image_url := req.image_url.getD p.image_url,
                    updated_at := now },
         { db with products :=
             (setProduct db.products
               { p with
                   name := req.name.getD p.name,
                   description := req.description.getD p.description,
                   price := pr, stock := st,
                   category := req.category.getD p.category,
                   image_url := req.image_url.getD p.image_url,
                   updated_at := now }) })) := by
  refine ⟨?_, ?_, ?_⟩
  · intro h req
    simp [updateProduct, h]
  · intro p x hp
    constructor
    · simp [updateProduct, hp, pyFloat, pyInt]
    · have hid : ({ p with price := x, updated_at := now } : Product).id = pid :=
        (findProduct_eq_some db.products pid p hp).1
      have hsome : (findProduct db.products pid).isSome := by simp [hp]
      simp [getProduct, findProduct_setProduct db.products _ pid hid hsome]
  · intro p req pr st hp hfl hint
    simp [updateProduct, hp, hfl, hint]

/-- Witness for C9: setting the Laptop's price to 799.99 updates exactly the
price and the timestamp, and a get returns the updated row. -/
theorem product_update_frame_witness :
    updateProduct dbW 9 1 { price := some (PyVal.float (79999/100)) } =
      (Res.ok { pW with price := 79999/100, updated_at := 9 },
       { dbW with products :=
           setProduct dbW.products { pW with price := 79999/100, updated_at := 9 } }) ∧
    getProduct
        { dbW with products :=
            setProduct dbW.products { pW with price := 79999/100, updated_at := 9 } } 1 =
      Res.ok { pW with price := 79999/100, updated_at := 9 } :=
  (product_update_frame dbW 9 1).2.1 pW (79999/100) (by decide)

/-- **C10.** The cart view's `item_count` counts every stored entry —
including stale ones whose product was deleted — while `items` and `total`
skip the stale entries, and the stored cart is returned unmodified; with one
stale entry, `item_count` (1) exceeds the items length (0). -/
theorem cart_view_spec (db : DB) (c : List (Nat × ℤ)) :
    (viewCart db c).1.item_count = c.length ∧
    (viewCart db c).1.items.length =
      (c.filter (fun kv => (findProduct db.products kv.1).isSome)).length ∧
    (viewCart db c).1.total =
      round2 (cartRawTotal db.products
        (c.filter (fun kv => (findProduct db.products kv.1).isSome))) ∧
    (viewCart db c).2 = c ∧
    ((viewCart dbEmpty [(9, 2)]).1.item_count = 1 ∧
     (viewCart dbEmpty [(9, 2)]).1.items.length = 0) := by
  refine ⟨rfl, buildItems_length db c, ?_, rfl, by decide, by decide⟩
  show calculate_cart_total db.products c = _
  rw [calculate_cart_total, cartRawTotal_filter]

end App
